import Mathlib

/-!
Shallow embedding of the TCP relay core in `main.go` of stojg/tcp-proxy.

The program is a per-connection relay: a `Proxy` owns one accepted local
connection and one dialed remote connection, runs two directional copy
loops (`Proxy.pipe`), a periodic traffic logger (`Proxy.stats`) and a
single-fire failure reporter (`Proxy.err`).

The embedding projects each Go function to a sequential Lean function.
External I/O is scripted: the outcomes of `Read`, `Write`, `Dial`,
`Close` and of the `select` in `stats` are passed in as data, and each
function returns the trace of observable actions (log lines, channel
sends and receives, goroutine spawns, connection closes, buffer
allocation, timer control) it performs, in source order, together with
any state it produces.
-/

namespace TCPProxy

/-- A Go error value as the relay distinguishes them: `io.EOF` (clean
end-of-stream) or any other error, carrying its message text. -/
inductive IOErr where
  | eof
  | other (msg : String)
deriving DecidableEq, Repr

/-- The observable actions of the relay core, in one-to-one
correspondence with the effectful statements of `main.go`:
log lines (each constructor carries exactly the data the corresponding
`log.Printf` renders), the dial, goroutine spawns, the channel
operations on `stopSignal` and `done`, the `erred` assignment, the
`Close` calls on each connection, the copy-buffer allocation and the
ticker start/stop. -/
inductive Action where
  | dial (tls : Bool) (target : String)
  | logRemoteFailed (id : Nat) (msg : String)
  | logOpened (id : Nat) (laddr raddr : String)
  | logClosed (id : Nat) (sent recv : Nat)
  | logStats (id : Nat) (sent recv : Nat)
  | logErr (id : Nat) (ctx : String) (e : IOErr)
  | logCloseFailed (msg : String)
  | spawnPipe (localToRemote : Bool)
  | spawnStats
  | waitStop
  | signalStop
  | markErred
  | signalDone
  | closeLocal
  | closeRemote
  | alloc (size : Nat)
  | tickerStart
  | tickerStop
deriving DecidableEq, Repr

/-- The `Proxy` struct.  `localAddr`/`remoteAddr` hold the strings the
resolved `*net.TCPAddr` values render to (`String()` is all the core
ever does with them); `clientAddr` is the peer address of the accepted
local connection — it exists on every accepted `*net.TCPConn` but the
code never reads it, which is exactly what claim C10 is about.
`stopSignal` and the connections themselves are modelled by the action
trace rather than stored. -/
structure Proxy where
  id : Nat
  sentBytes : Nat
  receivedBytes : Nat
  localAddr : String
  remoteAddr : String
  clientAddr : String
  erred : Bool
  tlsUnwrap : Bool
  tlsAddress : String
deriving DecidableEq, Repr

/-- Constructor `New`: plain-mode constructor; counters zero, `erred` false. -/
def New (id : Nat) (clientAddr laddr raddr : String) : Proxy :=
  { id := id
    sentBytes := 0
    receivedBytes := 0
    localAddr := laddr
    remoteAddr := raddr
    clientAddr := clientAddr
    erred := false
    tlsUnwrap := false
    tlsAddress := "" }

/-- Constructor `NewTLSUnwrapped`: `New` plus the TLS dial target and mode flag. -/
def NewTLSUnwrapped (id : Nat) (clientAddr laddr raddr addr : String) : Proxy :=
  { New id clientAddr laddr raddr with tlsUnwrap := true, tlsAddress := addr }

/-- Method `Proxy.err`, the failure reporter: if `erred` is already set, return
immediately (no log, no send, no state change); otherwise log the error
with its context unless it is `io.EOF`, then send on `stopSignal`, then
set `erred` — the source sets `p.erred = true` only after the
(blocking) send on `p.stopSignal`, and the trace keeps that order. -/
def Proxy.err (p : Proxy) (s : String) (e : IOErr) : Proxy × List Action :=
  if p.erred then (p, [])
  else
    ({ p with erred := true },
     (if e = IOErr.eof then [] else [Action.logErr p.id s e])
       ++ [Action.signalStop, Action.markErred])

/-- The package-level `close` helper: invoke `Close()` (rendered as the
action `act` for whichever connection is being closed) and, when it
returns an error, log it; the error is never propagated.  `res` is what
`Close()` returned. -/
def close (act : Action) (res : Option String) : List Action :=
  match res with
  | none => [act]
  | some msg => [act, Action.logCloseFailed msg]

/-- Outcome of the remote dial in `Proxy.Start` (`tls.Dial` or
`net.DialTCP`): success, or failure with the error text. -/
inductive DialResult where
  | ok
  | fail (msg : String)
deriving DecidableEq, Repr

/-- Method `Proxy.Start`, projected to its sequential trace.  The dial outcome
is scripted by `dial`.  On failure: log and return, with the deferred
`close(p.localConn)` still running (`localCloseErr` scripts what that
`Close` returns).  On success: register the deferred remote close, log
the opened line from the stored address strings, spawn the two pipes and
the stats goroutine, block on `stopSignal`, send on `done`, log the
closing summary with the counter values observed at that point
(`finalSent`/`finalRecv` script what the concurrent pipes have
accumulated), then run the deferred closes in LIFO order: remote first,
then local. -/
def Proxy.Start (p : Proxy) (dial : DialResult) (finalSent finalRecv : Nat)
    (remoteCloseErr localCloseErr : Option String) : List Action :=
  let dialAct := if p.tlsUnwrap then Action.dial true p.tlsAddress
                 else Action.dial false p.remoteAddr
  match dial with
  | DialResult.fail msg =>
      dialAct :: Action.logRemoteFailed p.id msg :: close Action.closeLocal localCloseErr
  | DialResult.ok =>
      dialAct ::
      Action.logOpened p.id p.localAddr p.remoteAddr ::
      Action.spawnPipe true ::
      Action.spawnPipe false ::
      Action.spawnStats ::
      Action.waitStop ::
      Action.signalDone ::
      Action.logClosed p.id finalSent finalRecv ::
      (close Action.closeRemote remoteCloseErr ++ close Action.closeLocal localCloseErr)

/-- One outcome of the `select` in `Proxy.stats`: either the ticker
fired and the counters read as `(sent, recv)` at that tick, or the
`done` channel delivered. -/
inductive StatsEv where
  | tick (sent recv : Nat)
  | done
deriving DecidableEq, Repr

/-- The `for`/`select` loop of `Proxy.stats`: `prevSent`/`prevRecv` are
the snapshot variables; a tick logs both current totals and updates the
snapshot exactly when either counter differs from the snapshot;
`done` stops the ticker and returns (events after it are unreached). -/
def statsLoop (id : Nat) (prevSent prevRecv : Nat) : List StatsEv → List Action
  | [] => []
  | StatsEv.done :: _ => [Action.tickerStop]
  | StatsEv.tick s r :: rest =>
      if prevSent ≠ s ∨ prevRecv ≠ r then
        Action.logStats id s r :: statsLoop id s r rest
      else
        statsLoop id prevSent prevRecv rest

/-- Method `Proxy.stats`: start the 30-second ticker, then run the loop with a
zero-initialised snapshot. -/
def Proxy.stats (p : Proxy) (evs : List StatsEv) : List Action :=
  Action.tickerStart :: statsLoop p.id 0 0 evs

/-- The ticker interval of `Proxy.stats`, in seconds
(`time.NewTicker(time.Second * 30)`). -/
def statsIntervalSeconds : Nat := 30

/-- The copy-buffer size of `Proxy.pipe` (`make([]byte, 0xffff)`). -/
def bufSize : Nat := 0xffff

/-- One iteration of the copy loop whose `Read` succeeded: `data` is the
chunk the read returned (`n` bytes, nil error; the `io.Reader` contract
bounds `n` by the buffer length), and `wres` is the outcome of writing
it: `none` when `Write` returned nil error (the `io.Writer` contract
then makes its `n` the full chunk length), `some (n, e)` when `Write`
returned error `e` after delivering `n` bytes. -/
structure PipeIter where
  data : List Nat
  wres : Option (Nat × IOErr)
deriving DecidableEq, Repr

/-- The `for` loop of `Proxy.pipe`.  `iters` scripts the iterations
whose read succeeded; the loop consumes them until one has a failing
write, and otherwise ends at the failing read `readEnd = (leftover, e)`
(Go permits a read to return bytes together with an error; the code
checks the error first and drops those bytes, so `leftover` is ignored).
Returns the final state, the bytes delivered to `dst` in order, and the
action trace.  On a successful write the counter selected by `isLocal`
(`sentBytes` when the source is the local connection) grows by the
written length; on a read or write error `p.err` is invoked and the
loop returns, leaving the counters untouched. -/
def Proxy.pipeLoop (p : Proxy) (isLocal : Bool) (iters : List PipeIter)
    (readEnd : List Nat × IOErr) : Proxy × List Nat × List Action :=
  match iters with
  | [] =>
      let r := p.err "read failed" readEnd.2
      (r.1, [], r.2)
  | it :: rest =>
      match it.wres with
      | some (n, e) =>
          let r := p.err "write failed" e
          (r.1, it.data.take n, r.2)
      | none =>
          let p' := if isLocal then { p with sentBytes := p.sentBytes + it.data.length }
                    else { p with receivedBytes := p.receivedBytes + it.data.length }
          let r := p'.pipeLoop isLocal rest readEnd
          (r.1, it.data ++ r.2.1, r.2.2)

/-- Method `Proxy.pipe`: allocate the single `0xffff`-byte copy buffer, then
run the loop.  `isLocal` embeds the pointer comparison
`src == p.localConn` (`Start` launches one pipe per direction). -/
def Proxy.pipe (p : Proxy) (isLocal : Bool) (iters : List PipeIter)
    (readEnd : List Nat × IOErr) : Proxy × List Nat × List Action :=
  let r := p.pipeLoop isLocal iters readEnd
  (r.1, r.2.1, Action.alloc bufSize :: r.2.2)

/-- A sequence of calls to the failure reporter (as the two pipes make
them over a session's lifetime), threaded through the state, with the
action traces concatenated. -/
def runErrCalls (p : Proxy) : List (String × IOErr) → Proxy × List Action
  | [] => (p, [])
  | (s, e) :: rest =>
      let (p', as) := p.err s e
      let (p'', as') := runErrCalls p' rest
      (p'', as ++ as')

/-- Returns `true` exactly on buffer-allocation actions. -/
def Action.isAlloc : Action → Bool
  | Action.alloc _ => true
  | _ => false

/-- Returns `true` exactly on the dial-failure log line. -/
def Action.isRemoteFailedLog : Action → Bool
  | Action.logRemoteFailed _ _ => true
  | _ => false

/-- Modelled from the spec, for comparison with the source-derived
`statsLoop`: on each tick compare the current totals against the
previous observation; if either changed, log both current totals and
update the previous-observation snapshot; if unchanged, stay silent;
on the stop signal, stop and release the timer. -/
def statsSpecModel (id : Nat) (prev : Nat × Nat) : List StatsEv → List Action
  | [] => []
  | StatsEv.done :: _ => [Action.tickerStop]
  | StatsEv.tick s r :: rest =>
      if (s, r) ≠ prev then Action.logStats id s r :: statsSpecModel id (s, r) rest
      else statsSpecModel id prev rest

/-! ## Helper lemmas -/

/-- A call to the reporter on an already-erred session is the identity
with an empty trace. -/
theorem err_of_erred (p : Proxy) (s : String) (e : IOErr) (h : p.erred = true) :
    p.err s e = (p, []) := by
  simp [Proxy.err, h]

/-- Any sequence of reporter calls on an already-erred session is the
identity with an empty trace. -/
theorem runErrCalls_of_erred (p : Proxy) (calls : List (String × IOErr))
    (h : p.erred = true) : runErrCalls p calls = (p, []) := by
  induction calls with
  | nil => rfl
  | cons c rest ih =>
      obtain ⟨s, e⟩ := c
      simp [runErrCalls, err_of_erred p s e h, ih]

/-- The reporter never changes the byte counters. -/
theorem err_counters (p : Proxy) (s : String) (e : IOErr) :
    (p.err s e).1.sentBytes = p.sentBytes
      ∧ (p.err s e).1.receivedBytes = p.receivedBytes := by
  by_cases h : p.erred = true <;> simp [Proxy.err, h]

/-- The reporter's trace never contains a buffer allocation. -/
theorem err_no_alloc (p : Proxy) (s : String) (e : IOErr) :
    (p.err s e).2.filter Action.isAlloc = [] := by
  by_cases h : p.erred = true <;>
    by_cases he : e = IOErr.eof <;>
      simp [Proxy.err, h, he, Action.isAlloc]

/-! ## Claim theorems -/

/-- C1: at most one termination event is processed per session: the
first reporter call on a not-yet-erred session delivers exactly one
`stopSignal` send (across that call and every later call), and a call
on an already-erred session is a no-op — no log, no signal, no state
change — however many pipe failures are reported. -/
theorem err_single_termination (p : Proxy) (s : String) (e : IOErr)
    (calls : List (String × IOErr)) (h : p.erred = false) :
    ((runErrCalls p ((s, e) :: calls)).2.count Action.signalStop = 1
      ∧ (runErrCalls p ((s, e) :: calls)).1.erred = true)
    ∧ ∀ (q : Proxy) (s' : String) (e' : IOErr), q.erred = true → q.err s' e' = (q, []) := by
  refine ⟨?_, fun q s' e' hq => err_of_erred q s' e' hq⟩
  have h2 : runErrCalls { p with erred := true } calls = ({ p with erred := true }, []) :=
    runErrCalls_of_erred _ calls rfl
  by_cases he : e = IOErr.eof <;>
    simp [runErrCalls, Proxy.err, h, he, h2, List.count_cons, List.count_append]

/-- C1 witness: concrete run with one real failure followed by the
suppressed secondary EOF. -/
theorem err_single_termination_witness :
    ((runErrCalls (New 1 "c" "l" "r")
        [("x", IOErr.other "boom"), ("y", IOErr.eof)]).2.count Action.signalStop = 1
      ∧ (runErrCalls (New 1 "c" "l" "r")
        [("x", IOErr.other "boom"), ("y", IOErr.eof)]).1.erred = true)
    ∧ ∀ (q : Proxy) (s' : String) (e' : IOErr), q.erred = true → q.err s' e' = (q, []) :=
  err_single_termination (New 1 "c" "l" "r") "x" (IOErr.other "boom") [("y", IOErr.eof)] rfl

/-- C4 counterexample: the claim says the reporter marks the session
erred and then delivers the termination signal; on a fresh session with
a non-EOF error the source trace is log, signal, mark — the `erred`
assignment comes after the send on `stopSignal`, not before. -/
theorem err_claim_order_false :
    ¬ (((New 1 "c" "l" "r").err "read failed" (IOErr.other "reset")).2
        = [Action.logErr 1 "read failed" (IOErr.other "reset"),
           Action.markErred, Action.signalStop]) := by
  decide

/-- C4 amended: on a not-yet-erred session the reporter logs the error
with its context unless it is end-of-stream (EOF is never logged), then
delivers the termination signal to the session's blocking wait, and
only then marks the session erred. -/
theorem err_logs_signals_then_marks (p : Proxy) (s : String) (e : IOErr)
    (h : p.erred = false) :
    (p.err s e).2
      = (if e = IOErr.eof then [] else [Action.logErr p.id s e])
        ++ [Action.signalStop, Action.markErred]
    ∧ (p.err s e).1 = { p with erred := true } := by
  simp [Proxy.err, h]

/-- C4 witness: the amended ordering at a concrete non-EOF failure. -/
theorem err_logs_signals_then_marks_witness :
    ((New 2 "c" "l" "r").err "write failed" (IOErr.other "pipe broken")).2
      = (if IOErr.other "pipe broken" = IOErr.eof then []
         else [Action.logErr (New 2 "c" "l" "r").id "write failed" (IOErr.other "pipe broken")])
        ++ [Action.signalStop, Action.markErred]
    ∧ ((New 2 "c" "l" "r").err "write failed" (IOErr.other "pipe broken")).1
        = { New 2 "c" "l" "r" with erred := true } :=
  err_logs_signals_then_marks (New 2 "c" "l" "r") "write failed" (IOErr.other "pipe broken") rfl

/-- When every scripted write succeeds, the copy loop delivers exactly
the concatenation of the chunks it read. -/
theorem pipeLoop_written (p : Proxy) (isLocal : Bool) (iters : List PipeIter)
    (readEnd : List Nat × IOErr) (h : ∀ it ∈ iters, it.wres = none) :
    (p.pipeLoop isLocal iters readEnd).2.1 = (iters.map PipeIter.data).flatten := by
  induction iters generalizing p with
  | nil => simp [Proxy.pipeLoop]
  | cons it rest ih =>
      have hw : it.wres = none := h it (by simp)
      have hr : ∀ x ∈ rest, x.wres = none := fun x hx => h x (by simp [hx])
      cases isLocal <;> simp [Proxy.pipeLoop, hw, ih _ hr]

/-- When every scripted write succeeds, the loop adds the total
delivered length to the counter selected by `isLocal` and leaves the
other counter untouched. -/
theorem pipeLoop_counters (p : Proxy) (isLocal : Bool) (iters : List PipeIter)
    (readEnd : List Nat × IOErr) (h : ∀ it ∈ iters, it.wres = none) :
    (p.pipeLoop isLocal iters readEnd).1.sentBytes
      = p.sentBytes + (if isLocal then ((iters.map PipeIter.data).flatten).length else 0)
    ∧ (p.pipeLoop isLocal iters readEnd).1.receivedBytes
      = p.receivedBytes + (if isLocal then 0 else ((iters.map PipeIter.data).flatten).length) := by
  induction iters generalizing p with
  | nil =>
      have hc := err_counters p "read failed" readEnd.2
      by_cases hl : isLocal <;> simp [Proxy.pipeLoop, hl, hc.1, hc.2]
  | cons it rest ih =>
      have hw : it.wres = none := h it (by simp)
      have hr : ∀ x ∈ rest, x.wres = none := fun x hx => h x (by simp [hx])
      cases isLocal <;>
        simp [Proxy.pipeLoop, hw, (ih _ hr).1, (ih _ hr).2] <;> omega

/-- The loop body never allocates: the only allocation of a pipe is the
single buffer made before the loop. -/
theorem pipeLoop_no_alloc (p : Proxy) (isLocal : Bool) (iters : List PipeIter)
    (readEnd : List Nat × IOErr) :
    (p.pipeLoop isLocal iters readEnd).2.2.filter Action.isAlloc = [] := by
  induction iters generalizing p with
  | nil => simp [Proxy.pipeLoop, err_no_alloc]
  | cons it rest ih =>
      cases hw : it.wres with
      | none => cases isLocal <;> simp [Proxy.pipeLoop, hw, ih]
      | some ne =>
          obtain ⟨n, e⟩ := ne
          simp [Proxy.pipeLoop, hw, err_no_alloc]

/-- C2: for every sequence of chunks a directional pipe reads
successfully (and writes without error), the destination receives
exactly the concatenation of those chunks, in order — no loss,
duplication or modification. -/
theorem pipe_relays_concatenation (p : Proxy) (isLocal : Bool)
    (iters : List PipeIter) (readEnd : List Nat × IOErr)
    (h : ∀ it ∈ iters, it.wres = none) :
    (p.pipe isLocal iters readEnd).2.1 = (iters.map PipeIter.data).flatten := by
  simpa [Proxy.pipe] using pipeLoop_written p isLocal iters readEnd h

/-- C2 witness: a concrete two-chunk relay ending in EOF. -/
theorem pipe_relays_concatenation_witness :
    ((New 1 "c" "l" "r").pipe true
        [{ data := [1, 2, 3], wres := none }, { data := [4], wres := none }]
        ([], IOErr.eof)).2.1
      = (([{ data := [1, 2, 3], wres := none },
           { data := [4], wres := none }] : List PipeIter).map PipeIter.data).flatten :=
  pipe_relays_concatenation (New 1 "c" "l" "r") true
    [{ data := [1, 2, 3], wres := none }, { data := [4], wres := none }]
    ([], IOErr.eof) (by decide)

/-- C3: the local-to-remote pipe increments only `sentBytes` and the
remote-to-local pipe only `receivedBytes`, each by the bytes written on
successful writes, so after the run each counter equals its previous
value plus the total bytes that pipe relayed to its destination. -/
theorem pipe_counter_attribution (p : Proxy) (iters : List PipeIter)
    (readEnd : List Nat × IOErr) (h : ∀ it ∈ iters, it.wres = none) :
    ((p.pipe true iters readEnd).1.sentBytes
        = p.sentBytes + ((p.pipe true iters readEnd).2.1).length
      ∧ (p.pipe true iters readEnd).1.receivedBytes = p.receivedBytes)
    ∧ ((p.pipe false iters readEnd).1.receivedBytes
        = p.receivedBytes + ((p.pipe false iters readEnd).2.1).length
      ∧ (p.pipe false iters readEnd).1.sentBytes = p.sentBytes) := by
  have ht := pipeLoop_counters p true iters readEnd h
  have hf := pipeLoop_counters p false iters readEnd h
  have hwt := pipeLoop_written p true iters readEnd h
  have hwf := pipeLoop_written p false iters readEnd h
  simp [Proxy.pipe, ht.1, ht.2, hf.1, hf.2, hwt, hwf]

/-- C3 witness: concrete chunks through both directions. -/
theorem pipe_counter_attribution_witness :
    (((New 3 "c" "l" "r").pipe true [{ data := [7, 8], wres := none }] ([], IOErr.eof)).1.sentBytes
        = (New 3 "c" "l" "r").sentBytes
          + (((New 3 "c" "l" "r").pipe true [{ data := [7, 8], wres := none }] ([], IOErr.eof)).2.1).length
      ∧ ((New 3 "c" "l" "r").pipe true [{ data := [7, 8], wres := none }] ([], IOErr.eof)).1.receivedBytes
        = (New 3 "c" "l" "r").receivedBytes)
    ∧ (((New 3 "c" "l" "r").pipe false [{ data := [7, 8], wres := none }] ([], IOErr.eof)).1.receivedBytes
        = (New 3 "c" "l" "r").receivedBytes
          + (((New 3 "c" "l" "r").pipe false [{ data := [7, 8], wres := none }] ([], IOErr.eof)).2.1).length
      ∧ ((New 3 "c" "l" "r").pipe false [{ data := [7, 8], wres := none }] ([], IOErr.eof)).1.sentBytes
        = (New 3 "c" "l" "r").sentBytes) :=
  pipe_counter_attribution (New 3 "c" "l" "r") [{ data := [7, 8], wres := none }]
    ([], IOErr.eof) (by decide)

/-- C7: each pipe allocates exactly one copy buffer, of exactly
`0xffff = 65535` bytes (not 65536), and since every read is bounded by
the buffer length, every write transfers at most 65535 bytes. -/
theorem pipe_buffer (p : Proxy) (isLocal : Bool) (iters : List PipeIter)
    (readEnd : List Nat × IOErr) (h : ∀ it ∈ iters, it.data.length ≤ bufSize) :
    bufSize = 65535 ∧ bufSize ≠ 65536
    ∧ (p.pipe isLocal iters readEnd).2.2.filter Action.isAlloc = [Action.alloc bufSize]
    ∧ ∀ it ∈ iters, it.data.length ≤ 65535 := by
  refine ⟨rfl, by decide, ?_, fun it hit => h it hit⟩
  simp [Proxy.pipe, Action.isAlloc, pipeLoop_no_alloc]

/-- C7 witness: a concrete pipe run allocates the single 65535-byte
buffer. -/
theorem pipe_buffer_witness :
    bufSize = 65535 ∧ bufSize ≠ 65536
    ∧ ((New 4 "c" "l" "r").pipe true [{ data := [9], wres := none }]
        ([], IOErr.eof)).2.2.filter Action.isAlloc = [Action.alloc bufSize]
    ∧ ∀ it ∈ ([{ data := [9], wres := none }] : List PipeIter), it.data.length ≤ 65535 :=
  pipe_buffer (New 4 "c" "l" "r") true [{ data := [9], wres := none }]
    ([], IOErr.eof) (by decide)

/-- C9: when a write fails, the iteration leaves both counters exactly
as they were — even when the failing write reports `n` bytes delivered
(`take n` of the chunk did reach the destination) — because the
increment runs only after a write that returned no error. -/
theorem pipe_write_error_counters_unchanged (p : Proxy) (isLocal : Bool)
    (d : List Nat) (n : Nat) (e : IOErr) (rest : List PipeIter)
    (readEnd : List Nat × IOErr) :
    (p.pipe isLocal ({ data := d, wres := some (n, e) } :: rest) readEnd).1.sentBytes
        = p.sentBytes
    ∧ (p.pipe isLocal ({ data := d, wres := some (n, e) } :: rest) readEnd).1.receivedBytes
        = p.receivedBytes
    ∧ (p.pipe isLocal ({ data := d, wres := some (n, e) } :: rest) readEnd).2.1 = d.take n := by
  have hc := err_counters p "write failed" e
  simp [Proxy.pipe, Proxy.pipeLoop, hc.1, hc.2]

/-- C5: when the remote dial fails — plain or TLS mode — `Start` logs
exactly one dial-failure line, never spawns a pipe or the stats
reporter, still closes the local connection through the deferred
cleanup, and the session's byte counters are both zero. -/
theorem start_dial_failure (p : Proxy) (id : Nat) (ca la ra ta msg : String)
    (fs fr : Nat) (rce lce : Option String)
    (hp : p = New id ca la ra ∨ p = NewTLSUnwrapped id ca la ra ta) :
    (p.Start (DialResult.fail msg) fs fr rce lce).filter Action.isRemoteFailedLog
        = [Action.logRemoteFailed id msg]
    ∧ (∀ b, Action.spawnPipe b ∉ p.Start (DialResult.fail msg) fs fr rce lce)
    ∧ Action.spawnStats ∉ p.Start (DialResult.fail msg) fs fr rce lce
    ∧ Action.closeLocal ∈ p.Start (DialResult.fail msg) fs fr rce lce
    ∧ p.sentBytes = 0 ∧ p.receivedBytes = 0 := by
  rcases hp with hp | hp <;> subst hp <;> cases lce <;>
    simp [Proxy.Start, close, New, NewTLSUnwrapped, Action.isRemoteFailedLog]

/-- C5 witness: a concrete failed dial in plain mode, with a clean
local close. -/
theorem start_dial_failure_witness :
    ((New 5 "c" "l" "r").Start (DialResult.fail "refused") 0 0 none none).filter
        Action.isRemoteFailedLog = [Action.logRemoteFailed 5 "refused"]
    ∧ (∀ b, Action.spawnPipe b ∉ (New 5 "c" "l" "r").Start (DialResult.fail "refused") 0 0 none none)
    ∧ Action.spawnStats ∉ (New 5 "c" "l" "r").Start (DialResult.fail "refused") 0 0 none none
    ∧ Action.closeLocal ∈ (New 5 "c" "l" "r").Start (DialResult.fail "refused") 0 0 none none
    ∧ (New 5 "c" "l" "r").sentBytes = 0 ∧ (New 5 "c" "l" "r").receivedBytes = 0 :=
  start_dial_failure (New 5 "c" "l" "r") 5 "c" "l" "r" "t" "refused" 0 0 none none (Or.inl rfl)

/-- C8: the remote connection is closed only after a successful dial —
on the dial-failure path the trace closes only the local connection; on
the success path each connection is closed exactly once during
teardown; and the `close` helper only logs a `Close` failure, never
propagating it. -/
theorem close_discipline (p : Proxy) (fs fr : Nat) (msg : String)
    (rce lce : Option String) :
    ((p.Start (DialResult.fail msg) fs fr rce lce).count Action.closeRemote = 0
      ∧ (p.Start (DialResult.fail msg) fs fr rce lce).count Action.closeLocal = 1)
    ∧ ((p.Start DialResult.ok fs fr rce lce).count Action.closeRemote = 1
      ∧ (p.Start DialResult.ok fs fr rce lce).count Action.closeLocal = 1)
    ∧ (∀ a, close a none = [a])
    ∧ (∀ a m, close a (some m) = [a, Action.logCloseFailed m]) := by
  cases rce <;> cases lce <;> cases hb : p.tlsUnwrap <;>
    simp [Proxy.Start, close, hb, List.count_cons, List.count_append]

/-- The source stats loop coincides with the spec-worded reporter for
every snapshot and event sequence. -/
theorem statsLoop_eq_spec (id : Nat) (evs : List StatsEv) :
    ∀ ps pr, statsLoop id ps pr evs = statsSpecModel id (ps, pr) evs := by
  induction evs with
  | nil => intro ps pr; rfl
  | cons ev rest ih =>
      intro ps pr
      cases ev with
      | done => rfl
      | tick s r =>
          by_cases hs : ps = s <;> by_cases hr : pr = r <;>
            simp [statsLoop, statsSpecModel, hs, hr, ih, eq_comm]

/-- C6: the stats loop equals the spec-worded reporter — log both
current totals exactly when either counter changed since the previous
observation, updating the snapshot when logging, silent otherwise — the
tick interval is 30 seconds, and on the stop signal it stops after
releasing its ticker. -/
theorem stats_refines_spec (p : Proxy) (evs : List StatsEv) :
    p.stats evs = Action.tickerStart :: statsSpecModel p.id (0, 0) evs
    ∧ statsIntervalSeconds = 30
    ∧ ∀ (id ps pr : Nat) (rest : List StatsEv),
        statsLoop id ps pr (StatsEv.done :: rest) = [Action.tickerStop] := by
  refine ⟨?_, rfl, fun id ps pr rest => rfl⟩
  simp [Proxy.stats, statsLoop_eq_spec]

/-- The reporter call trace depends only on the session id and the
erred flag, never on the client address or the other fields. -/
theorem err_actions_of_id_erred (p q : Proxy) (s : String) (e : IOErr)
    (hid : p.id = q.id) (he : p.erred = q.erred) :
    (p.err s e).2 = (q.err s e).2 := by
  by_cases hq : q.erred = true <;> simp [Proxy.err, he, hq, hid]

/-- The copy-loop trace depends only on the session id and the erred
flag of the starting state. -/
theorem pipeLoop_actions_of_id_erred (p q : Proxy) (isLocal : Bool)
    (iters : List PipeIter) (readEnd : List Nat × IOErr)
    (hid : p.id = q.id) (he : p.erred = q.erred) :
    (p.pipeLoop isLocal iters readEnd).2.2 = (q.pipeLoop isLocal iters readEnd).2.2 := by
  induction iters generalizing p q with
  | nil =>
      simpa [Proxy.pipeLoop] using err_actions_of_id_erred p q "read failed" readEnd.2 hid he
  | cons it rest ih =>
      cases hw : it.wres with
      | some ne =>
          obtain ⟨n, e⟩ := ne
          simpa [Proxy.pipeLoop, hw] using err_actions_of_id_erred p q "write failed" e hid he
      | none =>
          cases isLocal
          · simpa [Proxy.pipeLoop, hw] using
              ih { p with receivedBytes := p.receivedBytes + it.data.length }
                 { q with receivedBytes := q.receivedBytes + it.data.length } hid he
          · simpa [Proxy.pipeLoop, hw] using
              ih { p with sentBytes := p.sentBytes + it.data.length }
                 { q with sentBytes := q.sentBytes + it.data.length } hid he

/-- C10: for a session of either mode — `p` built by `New` or by
`NewTLSUnwrapped`, and `q` the same session with a different accepted
client peer address — the opened line renders the resolved listening
and remote address strings stored at creation (the same strings `main`
passes to every session of a run), and every trace the core produces —
`Start`, `stats`, the reporter, the pipes — is unchanged under the
change of client address, so that address appears in no log line. -/
theorem logs_use_resolved_addresses_never_client (p q : Proxy) (id : Nat)
    (ca ca2 la ra ta : String) (d : DialResult) (fs fr : Nat)
    (rce lce : Option String) (evs : List StatsEv) (s : String) (e : IOErr)
    (b : Bool) (iters : List PipeIter) (readEnd : List Nat × IOErr)
    (hpq : (p = New id ca la ra ∧ q = New id ca2 la ra)
        ∨ (p = NewTLSUnwrapped id ca la ra ta ∧ q = NewTLSUnwrapped id ca2 la ra ta)) :
    Action.logOpened id la ra ∈ p.Start DialResult.ok fs fr rce lce
    ∧ p.localAddr = la ∧ p.remoteAddr = ra
    ∧ p.Start d fs fr rce lce = q.Start d fs fr rce lce
    ∧ p.stats evs = q.stats evs
    ∧ (p.err s e).2 = (q.err s e).2
    ∧ (p.pipe b iters readEnd).2.2 = (q.pipe b iters readEnd).2.2 := by
  rcases hpq with ⟨hp, hq⟩ | ⟨hp, hq⟩
  · subst hp; subst hq
    refine ⟨?_, rfl, rfl, ?_, rfl, ?_, ?_⟩
    · simp [Proxy.Start, close, New]
    · cases d <;> rfl
    · exact err_actions_of_id_erred _ _ s e rfl rfl
    · have h := pipeLoop_actions_of_id_erred (New id ca la ra) (New id ca2 la ra)
        b iters readEnd rfl rfl
      simp [Proxy.pipe, h]
  · subst hp; subst hq
    refine ⟨?_, rfl, rfl, ?_, rfl, ?_, ?_⟩
    · simp [Proxy.Start, close, New, NewTLSUnwrapped]
    · cases d <;> rfl
    · exact err_actions_of_id_erred _ _ s e rfl rfl
    · have h := pipeLoop_actions_of_id_erred (NewTLSUnwrapped id ca la ra ta)
        (NewTLSUnwrapped id ca2 la ra ta) b iters readEnd rfl rfl
      simp [Proxy.pipe, h]

/-- C10 witness: a concrete TLS-unwrap session, compared with the same
session under a different client peer address. -/
theorem logs_use_resolved_addresses_never_client_witness :
    Action.logOpened 7 "l" "r"
        ∈ (NewTLSUnwrapped 7 "c1" "l" "r" "t").Start DialResult.ok 0 0 none none
    ∧ (NewTLSUnwrapped 7 "c1" "l" "r" "t").localAddr = "l"
    ∧ (NewTLSUnwrapped 7 "c1" "l" "r" "t").remoteAddr = "r"
    ∧ (NewTLSUnwrapped 7 "c1" "l" "r" "t").Start DialResult.ok 0 0 none none
        = (NewTLSUnwrapped 7 "c2" "l" "r" "t").Start DialResult.ok 0 0 none none
    ∧ (NewTLSUnwrapped 7 "c1" "l" "r" "t").stats [StatsEv.tick 1 2, StatsEv.done]
        = (NewTLSUnwrapped 7 "c2" "l" "r" "t").stats [StatsEv.tick 1 2, StatsEv.done]
    ∧ ((NewTLSUnwrapped 7 "c1" "l" "r" "t").err "x" IOErr.eof).2
        = ((NewTLSUnwrapped 7 "c2" "l" "r" "t").err "x" IOErr.eof).2
    ∧ ((NewTLSUnwrapped 7 "c1" "l" "r" "t").pipe true
          [{ data := [1], wres := none }] ([], IOErr.eof)).2.2
        = ((NewTLSUnwrapped 7 "c2" "l" "r" "t").pipe true
          [{ data := [1], wres := none }] ([], IOErr.eof)).2.2 :=
  logs_use_resolved_addresses_never_client
    (NewTLSUnwrapped 7 "c1" "l" "r" "t") (NewTLSUnwrapped 7 "c2" "l" "r" "t")
    7 "c1" "c2" "l" "r" "t" DialResult.ok 0 0 none none
    [StatsEv.tick 1 2, StatsEv.done] "x" IOErr.eof true
    [{ data := [1], wres := none }] ([], IOErr.eof) (Or.inr ⟨rfl, rfl⟩)

end TCPProxy
